import Mathlib

/-!
Verification of the active-section / navigation-highlighting subsystem of a
portfolio web page.  The repository holds two scripts:

* `src/script.js` — the consolidated script: a throttled scroll listener
  (`ticking` + `requestAnimationFrame`), an `IntersectionObserver`-based
  active-link highlighter, and observer-based reveal / skill-bar / counter
  animations, each with an explicit fallback path.
* `src/unnamed/part_000` — an older script: an unthrottled scroll listener
  that highlights the last section whose `offsetTop - 200` lies at or above
  `scrollY`, and an unguarded navbar box-shadow handler.

Geometry (offsets, heights, scroll positions, intersection ratios) is
modelled over `ℚ`.  DOM class toggling is modelled by a boolean `active`
flag per navigation link.
-/

/-- A page section as captured by `querySelectorAll("section[id]")`:
its `id` attribute, its `offsetTop` and its `clientHeight`
(src/unnamed/part_000 lines 26, 32-33; script.js line 123). -/
structure Section where
  id : String
  top : ℚ
  height : ℚ
  deriving DecidableEq

/-- A navigation link: its `href` attribute and whether it currently has
the CSS class `active`. -/
structure NavLink where
  href : String
  active : Bool
  deriving DecidableEq

/-- An IntersectionObserver entry as consumed by the script.js callback
(lines 129-137): the target section's `id`, the `isIntersecting` flag and
the entry's intersection ratio (field `ratio`). -/
structure ObsEntry where
  id : String
  isIntersecting : Bool
  ratio : ℚ
  deriving DecidableEq

/-- Mark exactly the links whose `href` equals `"#" ++ current` as active.
This is the link re-scan shared by both scripts:
script.js lines 136-138 (`classList.toggle("active", href === ...)`) and
src/unnamed/part_000 lines 39-44 (`remove("active")` then conditional
`add("active")`). -/
def setActive (current : String) (links : List NavLink) : List NavLink :=
  links.map (fun l => { l with active := decide (l.href = "#" ++ current) })

/-- src/unnamed/part_000 lines 30-37: fold over the sections in document
order; `current` becomes the id of the LAST section whose
`offsetTop - 200` is at or below `scrollY`.  The `sectionHeight` read on
line 33 is never used, so it does not appear here. -/
def computeCurrent (sections : List Section) (scrollY : ℚ) : String :=
  sections.foldl (fun current s => if s.top - 200 ≤ scrollY then s.id else current) ""

/-- src/unnamed/part_000 lines 29-45: one run of the active-navigation
scroll handler. -/
def partScrollHandler (sections : List Section) (scrollY : ℚ)
    (links : List NavLink) : List NavLink :=
  setActive (computeCurrent sections scrollY) links

/-- Stable insertion used by `sortDesc`: `x` is placed before the first
element whose ratio is not larger, so equal ratios keep their original
relative order. -/
def insertDesc (x : ObsEntry) : List ObsEntry → List ObsEntry
  | [] => [x]
  | y :: ys => if x.ratio < y.ratio then y :: insertDesc x ys else x :: y :: ys

/-- The meaning of `entries.sort((a, b) => (b.intersectionRatio || 0) -
(a.intersectionRatio || 0))` (script.js line 131): a stable sort by
descending intersection ratio (JavaScript `Array.prototype.sort` is
stable, and the comparator returns 0 exactly on equal ratios). -/
def sortDesc : List ObsEntry → List ObsEntry
  | [] => []
  | x :: xs => insertDesc x (sortDesc xs)

/-- script.js lines 129-131: filter the intersecting entries, stable-sort
them by descending ratio and take element `[0]` (`none` when the list is
empty, matching the `undefined` checked on line 133). -/
def chooseVisible (entries : List ObsEntry) : Option ObsEntry :=
  (sortDesc (entries.filter (fun e => e.isIntersecting))).head?

/-- script.js lines 127-139: one run of the sectionObserver callback.
When no entry is intersecting the callback returns early (line 133) and
the links are left untouched. -/
def sectionObserverCallback (entries : List ObsEntry)
    (links : List NavLink) : List NavLink :=
  match chooseVisible entries with
  | none => links
  | some e => setActive e.id links

/-- Reference selector: the first entry (in list order) among the
intersecting entries whose ratio is maximal.  Proved below to coincide
with `chooseVisible`. -/
def firstMax : List ObsEntry → Option ObsEntry
  | [] => none
  | e :: es =>
    match firstMax es with
    | none => some e
    | some b => if b.ratio ≤ e.ratio then some e else some b

/-- State of the throttle in script.js lines 92-113: whether a
`requestAnimationFrame(onScroll)` is already pending for this frame, and
how many callbacks have been scheduled. -/
structure TickState where
  ticking : Bool
  pending : Nat
  deriving DecidableEq

/-- script.js lines 108-113: the scroll listener schedules `onScroll` only
when `ticking` is false, and then sets `ticking`. -/
def noteScroll (st : TickState) : TickState :=
  if st.ticking then st else { ticking := true, pending := st.pending + 1 }

/-- The presentation flags written by `onScroll`: the navbar `scrolled`
class and the scroll-top button `visible` class. -/
structure PageFlags where
  scrolled : Bool
  topBtnVisible : Bool
  deriving DecidableEq

/-- script.js lines 94-106: `onScroll` reads the current scroll position
and toggles the two classes from it (it also resets `ticking`, handled in
`scriptFrame`). -/
def onScroll (y : ℚ) : PageFlags :=
  { scrolled := decide (y > 20), topBtnVisible := decide (y > 500) }

/-- One rendering frame of script.js's throttled scroll path: the frame
starts with `ticking = false`, every notification in the frame runs the
listener (lines 108-113), and at the frame boundary each scheduled
callback executes `onScroll`, reading the scroll position current at that
moment — the last notification's position.  Returns how many times
`onScroll` ran and the resulting flags. -/
def scriptFrame (notifs : List ℚ) (flags : PageFlags) : Nat × PageFlags :=
  let st := notifs.foldl (fun st _ => noteScroll st) { ticking := false, pending := 0 }
  match notifs.getLast? with
  | none => (st.pending, flags)
  | some y => (st.pending, (List.replicate st.pending y).foldl (fun _ yy => onScroll yy) flags)

/-- src/unnamed/part_000 lines 29-45 attach the recomputation directly to
the scroll event with no throttling: every notification in a frame runs
the handler immediately at its own position.  Returns how many times the
recomputation ran and the final link marking. -/
def partFrame (sections : List Section) (notifs : List ℚ)
    (links : List NavLink) : Nat × List NavLink :=
  notifs.foldl (fun acc y => (acc.1 + 1, partScrollHandler sections y acc.2)) (0, links)

/-- src/unnamed/part_000 lines 16-23: the navbar box-shadow handler calls
`document.getElementById("navbar")` and dereferences the result with no
null check; with no `#navbar` element the handler throws a `TypeError`,
modelled as `Except.error`.  Otherwise it assigns one of two shadow
values. -/
def navbarScrollEffect (navbar : Option String) (scrollY : ℚ) : Except String String :=
  match navbar with
  | none => Except.error ("TypeError: cannot read style of null")
  | some _ =>
    if scrollY > 50 then Except.ok ("0 4px 20px rgba(0,0,0,0.15)")
    else Except.ok ("0 2px 10px rgba(0,0,0,0.1)")

/-- script.js lines 94-106 with nullable elements: both element accesses
are guarded (`if (navbar)`, `if (scrollTopBtn)`), so the handler never
throws; each present element gets its class toggled. -/
def onScrollGuarded (navbar scrollTopBtn : Option String) (y : ℚ) :
    Except String (Option Bool × Option Bool) :=
  Except.ok (navbar.map (fun _ => decide (y > 20)),
             scrollTopBtn.map (fun _ => decide (y > 500)))

/-- Whether an `Except` value is a success. -/
def exceptOk : Except String α → Bool
  | Except.ok _ => true
  | Except.error _ => false

/-- script.js lines 155-176 (reveal animations): each element is modelled
by its `is-visible` flag.  Returns the flags after initialisation and
whether an observer was installed.  With reduced motion, or without
IntersectionObserver (the `else` on lines 173-176), every element is
marked visible immediately. -/
def revealInit (prm hasObs : Bool) (els : List Bool) : List Bool × Bool :=
  if prm then (els.map (fun _ => true), false)
  else if hasObs then (els, true)
  else (els.map (fun _ => true), false)

/-- script.js lines 196-213 (skill bars): returns whether
`animateSkillBars` ran immediately and whether an observer was installed.
The fallback on lines 210-213 runs it immediately when the overview
element exists but IntersectionObserver does not. -/
def skillsInit (hasSkills hasObs : Bool) : Bool × Bool :=
  if hasSkills && hasObs then (false, true)
  else if hasSkills then (true, false)
  else (false, false)

/-- A stat-counter element: its `data-count` attribute (absent modelled as
`none`), its `data-suffix`, and its text content. -/
structure StatEl where
  count : Option String
  suffix : String
  text : String
  deriving DecidableEq

/-- script.js lines 247-267 (stat counters): with IntersectionObserver and
a nonempty element list an observer is installed; otherwise each element
with a `data-count` gets its final text written immediately. -/
def statsInit (hasObs : Bool) (els : List StatEl) : List StatEl × Bool :=
  if !els.isEmpty && hasObs then (els, true)
  else (els.map (fun e =>
    match e.count with
    | some c => { e with text := c ++ e.suffix }
    | none => e), false)

/-- script.js lines 125-149 (nav highlighting): the observer is installed
only when IntersectionObserver exists AND the section list is nonempty;
there is no `else` branch, so in all other cases the links are left
exactly as they are and nothing is installed. -/
def navHighlightInit (hasObs : Bool) (sections : List Section)
    (links : List NavLink) : List NavLink × Bool :=
  if hasObs && !sections.isEmpty then (links, true) else (links, false)

/-- Plain geometric viewport intersection (no margins): the section
`[top, top + height)` overlaps the viewport `[scrollY, scrollY + vh)`. -/
def InViewport (s : Section) (scrollY vh : ℚ) : Prop :=
  scrollY < s.top + s.height ∧ s.top < scrollY + vh

/-- Modelled from the spec and from script.js line 144: the browser's
IntersectionObserver root rectangle after the rootMargin
`-max(navHeight, 60)px 0px -55% 0px` — top edge pushed down by
`max(navH, 60)`, bottom edge pulled up by 55% of the viewport height.
The browser itself (which computes `isIntersecting` and the ratio) is not
part of the repository, so its geometry is modelled here. -/
def rootTop (scrollY navH : ℚ) : ℚ := scrollY + max navH 60

/-- Bottom edge of the rootMargin-adjusted observer root. -/
def rootBottom (scrollY vh : ℚ) : ℚ := scrollY + vh - 55 / 100 * vh

/-- Height of the overlap between a section and the adjusted root. -/
def secOverlap (s : Section) (scrollY navH vh : ℚ) : ℚ :=
  max 0 (min (s.top + s.height) (rootBottom scrollY vh) - max s.top (rootTop scrollY navH))

/-- The IntersectionObserver entry the browser would deliver for a section
at a given scroll position: intersecting when the overlap is positive,
ratio = overlap / section height. -/
def entryOf (s : Section) (scrollY navH vh : ℚ) : ObsEntry :=
  { id := s.id
    isIntersecting := decide (0 < secOverlap s scrollY navH vh)
    ratio := secOverlap s scrollY navH vh / s.height }

/-- The id the script.js observer-based highlighter selects at a given
scroll position: the callback's choice over the entries of all sections,
in document order. -/
def observerSelect (sections : List Section) (scrollY navH vh : ℚ) : Option String :=
  (chooseVisible (sections.map (fun s => entryOf s scrollY navH vh))).map (fun e => e.id)

/-- Number of links currently marked active. -/
def countActive (links : List NavLink) : Nat :=
  links.countP (fun l => l.active)

/-! ## Helper lemmas -/

/-- After `setActive`, the number of active links equals the number of
hrefs equal to the target string. -/
theorem countActive_setActive (c : String) (links : List NavLink) :
    countActive (setActive c links) =
      (links.map NavLink.href).countP (fun s => decide (s = "#" ++ c)) := by
  unfold countActive setActive
  rw [List.countP_map, List.countP_map]
  rfl

/-- A duplicate-free list has at most one element equal to any target. -/
theorem countP_decide_eq_le_one {α : Type} [DecidableEq α] (t : α) :
    ∀ l : List α, l.Nodup → l.countP (fun s => decide (s = t)) ≤ 1 := by
  intro l
  induction l with
  | nil => intro h; simp
  | cons a l ih =>
    intro hnd
    obtain ⟨hna, hl⟩ := List.nodup_cons.mp hnd
    rw [List.countP_cons]
    by_cases hat : a = t
    · subst hat
      have hz : l.countP (fun s => decide (s = a)) = 0 := by
        rw [List.countP_eq_zero]
        intro x hx
        simp only [decide_eq_true_eq]
        intro hxa
        exact hna (hxa ▸ hx)
      simp [hz]
    · simpa [hat] using ih hl

/-- With pairwise-distinct hrefs, `setActive` marks at most one link. -/
theorem countActive_setActive_le_one (c : String) (links : List NavLink)
    (h : (links.map NavLink.href).Nodup) :
    countActive (setActive c links) ≤ 1 := by
  rw [countActive_setActive]
  exact countP_decide_eq_le_one ("#" ++ c) _ h

/-- Every link marked active by `setActive` targets the given id. -/
theorem setActive_active_href {c : String} {links : List NavLink} {l : NavLink}
    (hl : l ∈ setActive c links) (ha : l.active = true) : l.href = "#" ++ c := by
  simp only [setActive, List.mem_map] at hl
  obtain ⟨l₀, -, rfl⟩ := hl
  simpa using ha

/-- Head of a stable descending insertion. -/
theorem insertDesc_head (x y : ObsEntry) (ys : List ObsEntry) :
    (insertDesc x (y :: ys)).head? = some (if x.ratio < y.ratio then y else x) := by
  by_cases h : x.ratio < y.ratio <;> simp [insertDesc, h]

/-- `firstMax` returns `none` exactly on the empty list. -/
theorem firstMax_eq_none_iff (l : List ObsEntry) : firstMax l = none ↔ l = [] := by
  cases l with
  | nil => simp [firstMax]
  | cons x xs =>
    simp only [List.cons_ne_nil, iff_false]
    intro h
    rw [firstMax] at h
    cases hfm : firstMax xs with
    | none =>
      simp only [hfm] at h
      exact Option.noConfusion h
    | some b =>
      simp only [hfm] at h
      by_cases hle : b.ratio ≤ x.ratio <;> simp [hle] at h

/-- The head of the stable descending sort is the first entry of maximal
ratio. -/
theorem sortDesc_head : ∀ l : List ObsEntry, (sortDesc l).head? = firstMax l := by
  intro l
  induction l with
  | nil => rfl
  | cons x xs ih =>
    cases hfm : firstMax xs with
    | none =>
      have hnil : xs = [] := (firstMax_eq_none_iff xs).mp hfm
      subst hnil
      rfl
    | some b =>
      have hb : (sortDesc xs).head? = some b := by rw [ih, hfm]
      obtain ⟨ys, hys⟩ := List.head?_eq_some_iff.mp hb
      have hfx : firstMax (x :: xs) = if b.ratio ≤ x.ratio then some x else some b := by
        rw [firstMax]
        simp only [hfm]
      show (insertDesc x (sortDesc xs)).head? = firstMax (x :: xs)
      rw [hys, insertDesc_head, hfx]
      by_cases h : x.ratio < b.ratio
      · rw [if_pos h, if_neg (not_le.mpr h)]
      · rw [if_neg h, if_pos (not_lt.mp h)]

/-- `firstMax` picks an element of maximal ratio, and everything strictly
before it in the list has strictly smaller ratio. -/
theorem firstMax_spec : ∀ (l : List ObsEntry) (e : ObsEntry), firstMax l = some e →
    (∀ x ∈ l, x.ratio ≤ e.ratio) ∧
    ∃ l₁ l₂, l = l₁ ++ e :: l₂ ∧ ∀ x ∈ l₁, x.ratio < e.ratio := by
  intro l
  induction l with
  | nil => intro e h; cases h
  | cons a es ih =>
    intro e h
    rw [firstMax] at h
    cases hes : firstMax es with
    | none =>
      simp only [hes] at h
      have hnil : es = [] := (firstMax_eq_none_iff es).mp hes
      subst hnil
      cases h
      exact ⟨by simp, [], [], rfl, by simp⟩
    | some b =>
      simp only [hes] at h
      obtain ⟨hmax, l₁, l₂, hsplit, hlt⟩ := ih b hes
      by_cases hle : b.ratio ≤ a.ratio
      · rw [if_pos hle] at h
        cases h
        refine ⟨?_, [], es, rfl, by simp⟩
        intro x hx
        rcases List.mem_cons.mp hx with hx | hx
        · subst hx; exact le_refl _
        · exact le_trans (hmax x hx) hle
      · rw [if_neg hle] at h
        cases h
        have halt : a.ratio < e.ratio := not_le.mp hle
        refine ⟨?_, a :: l₁, l₂, by rw [hsplit]; rfl, ?_⟩
        · intro x hx
          rcases List.mem_cons.mp hx with hx | hx
          · subst hx; exact le_of_lt halt
          · exact hmax x hx
        · intro x hx
          rcases List.mem_cons.mp hx with hx | hx
          · subst hx; exact halt
          · exact hlt x hx

/-! ## Claims -/

/-- C1: after every run of either highlighting handler, at most one
NavLink is marked active (given pairwise distinct hrefs, stated as
`Nodup` of the href list), and any active link is the one whose href
targets the id the handler selected as active; when the observer callback
selects nothing it leaves the marking unchanged, so the bound persists
from the previous state. -/
theorem C1_at_most_one_active (sections : List Section) (y : ℚ)
    (entries : List ObsEntry) (links : List NavLink)
    (hdist : (links.map NavLink.href).Nodup)
    (hinv : countActive links ≤ 1) :
    countActive (partScrollHandler sections y links) ≤ 1 ∧
    (∀ l ∈ partScrollHandler sections y links, l.active = true →
      l.href = "#" ++ computeCurrent sections y) ∧
    countActive (sectionObserverCallback entries links) ≤ 1 ∧
    (∀ e, chooseVisible entries = some e →
      ∀ l ∈ sectionObserverCallback entries links, l.active = true →
        l.href = "#" ++ e.id) := by
  refine ⟨countActive_setActive_le_one _ _ hdist,
    fun l hl ha => setActive_active_href hl ha, ?_, ?_⟩
  · unfold sectionObserverCallback
    cases hv : chooseVisible entries with
    | none => exact hinv
    | some e => exact countActive_setActive_le_one _ _ hdist
  · intro e he l hl ha
    unfold sectionObserverCallback at hl
    rw [he] at hl
    exact setActive_active_href hl ha

/-- Witness for C1 at a concrete input. -/
theorem C1_witness :
    ((([⟨"#about", false⟩, ⟨"#work", true⟩] : List NavLink).map NavLink.href).Nodup ∧
      countActive [⟨"#about", false⟩, ⟨"#work", true⟩] ≤ 1) ∧
    (countActive (partScrollHandler [⟨"about", 0, 800⟩] 100
        [⟨"#about", false⟩, ⟨"#work", true⟩]) ≤ 1 ∧
      (∀ l ∈ partScrollHandler [⟨"about", 0, 800⟩] 100
          [⟨"#about", false⟩, ⟨"#work", true⟩], l.active = true →
        l.href = "#" ++ computeCurrent [⟨"about", 0, 800⟩] 100) ∧
      countActive (sectionObserverCallback [⟨"about", true, 1⟩]
        [⟨"#about", false⟩, ⟨"#work", true⟩]) ≤ 1 ∧
      (∀ e, chooseVisible [⟨"about", true, 1⟩] = some e →
        ∀ l ∈ sectionObserverCallback [⟨"about", true, 1⟩]
          [⟨"#about", false⟩, ⟨"#work", true⟩], l.active = true →
          l.href = "#" ++ e.id)) :=
  ⟨⟨by decide, by decide⟩,
    C1_at_most_one_active [⟨"about", 0, 800⟩] 100 [⟨"about", true, 1⟩]
      [⟨"#about", false⟩, ⟨"#work", true⟩] (by decide) (by decide)⟩

/-- C2 (amended part that holds): whenever the script.js observer
callback selects an entry, that entry is intersecting, its ratio is
maximal among the intersecting entries, and every intersecting entry
strictly before it in document order has strictly smaller ratio — so on
equal ratios the earliest wins. -/
theorem C2_highest_first (entries : List ObsEntry) (e : ObsEntry)
    (h : chooseVisible entries = some e) :
    e.isIntersecting = true ∧
    (∀ x ∈ entries, x.isIntersecting = true → x.ratio ≤ e.ratio) ∧
    ∃ l₁ l₂, entries.filter (fun x => x.isIntersecting) = l₁ ++ e :: l₂ ∧
      ∀ x ∈ l₁, x.ratio < e.ratio := by
  unfold chooseVisible at h
  rw [sortDesc_head] at h
  obtain ⟨hmax, l₁, l₂, hsplit, hlt⟩ := firstMax_spec _ e h
  have hmem : e ∈ entries.filter (fun x => x.isIntersecting) := by
    rw [hsplit]
    exact List.mem_append_right _ (List.mem_cons_self _ _)
  have hint : e.isIntersecting = true := (List.mem_filter.mp hmem).2
  refine ⟨hint, fun x hx hxi => hmax x (List.mem_filter.mpr ⟨hx, hxi⟩), l₁, l₂, hsplit, hlt⟩

/-- Witness for C2 at a concrete input: two intersecting entries with
equal ratios; the callback picks the first. -/
theorem C2_witness :
    chooseVisible [⟨"a", true, 1⟩, ⟨"b", true, 1⟩] = some ⟨"a", true, 1⟩ ∧
    ((⟨"a", true, 1⟩ : ObsEntry).isIntersecting = true ∧
      (∀ x ∈ [(⟨"a", true, 1⟩ : ObsEntry), ⟨"b", true, 1⟩], x.isIntersecting = true →
        x.ratio ≤ (⟨"a", true, 1⟩ : ObsEntry).ratio) ∧
      ∃ l₁ l₂, ([(⟨"a", true, 1⟩ : ObsEntry), ⟨"b", true, 1⟩]).filter
          (fun x => x.isIntersecting) = l₁ ++ (⟨"a", true, 1⟩ : ObsEntry) :: l₂ ∧
        ∀ x ∈ l₁, x.ratio < (⟨"a", true, 1⟩ : ObsEntry).ratio) :=
  ⟨by norm_num [chooseVisible, sortDesc, insertDesc],
    C2_highest_first _ _ (by norm_num [chooseVisible, sortDesc, insertDesc])⟩

/-- C2 counterexample: the fallback handler in the unnamed file does not
implement this selection rule.  Two sections that tie (equal intersection
ratio 1 under the observer geometry, both intersecting) should resolve to
the earlier one, "a"; the fallback recompute selects "b", the later. -/
theorem C2_counterexample :
    (entryOf ⟨"a", 60, 100⟩ 0 60 600).ratio = (entryOf ⟨"b", 165, 100⟩ 0 60 600).ratio ∧
    (entryOf ⟨"a", 60, 100⟩ 0 60 600).isIntersecting = true ∧
    (entryOf ⟨"b", 165, 100⟩ 0 60 600).isIntersecting = true ∧
    computeCurrent [⟨"a", 60, 100⟩, ⟨"b", 165, 100⟩] 0 = "b" := by
  refine ⟨?_, ?_, ?_, ?_⟩
  · norm_num [entryOf, secOverlap, rootTop, rootBottom]
  · norm_num [entryOf, secOverlap, rootTop, rootBottom]
  · norm_num [entryOf, secOverlap, rootTop, rootBottom]
  · norm_num [computeCurrent]

/-- C3 counterexample: with a single section below the fold (top 300,
height 100, viewport height 100, scroll position 0) nothing intersects
the viewport, yet the fallback handler clears the previously active
link instead of leaving it unchanged. -/
theorem C3_counterexample :
    ¬ InViewport ⟨"about", 300, 100⟩ 0 100 ∧
    partScrollHandler [⟨"about", 300, 100⟩] 0 [⟨"#about", true⟩] = [⟨"#about", false⟩] := by
  constructor
  · norm_num [InViewport]
  · norm_num [partScrollHandler, computeCurrent, setActive]
    decide

/-- C3 (amended part that holds): the script.js observer callback leaves
every link marking exactly as it was when no entry intersects. -/
theorem C3_observer_keeps_state (entries : List ObsEntry) (links : List NavLink)
    (h : ∀ e ∈ entries, e.isIntersecting = false) :
    sectionObserverCallback entries links = links := by
  have hf : entries.filter (fun e => e.isIntersecting) = [] :=
    List.filter_eq_nil_iff.mpr (fun e he => by simp [h e he])
  unfold sectionObserverCallback chooseVisible
  rw [hf]
  rfl

/-- Witness for the amended C3 theorem at a concrete input. -/
theorem C3_witness :
    (∀ e ∈ [(⟨"x", false, 0⟩ : ObsEntry)], e.isIntersecting = false) ∧
    sectionObserverCallback [⟨"x", false, 0⟩] [⟨"#x", true⟩] = [⟨"#x", true⟩] :=
  ⟨by decide, C3_observer_keeps_state [⟨"x", false, 0⟩] [⟨"#x", true⟩] (by decide)⟩

/-- C4: in the spec's reference scenario (sections about(0,800) and
work(800,1200), viewport height 600, scroll position 900) the "work"
section covers the viewport, and a run of the recompute marks the link
targeting work as active and the link targeting about as inactive,
whatever their previous marking. -/
theorem C4_reference_scenario (a w : Bool) :
    InViewport ⟨"work", 800, 1200⟩ 900 600 ∧
    partScrollHandler [⟨"about", 0, 800⟩, ⟨"work", 800, 1200⟩] 900
      [⟨"#about", a⟩, ⟨"#work", w⟩] = [⟨"#about", false⟩, ⟨"#work", true⟩] := by
  constructor
  · norm_num [InViewport]
  · norm_num [partScrollHandler, computeCurrent, setActive]
    decide

/-- Once `ticking` is set with one callback pending, further
notifications in the frame change nothing. -/
theorem noteScroll_fold_ticking (l : List ℚ) :
    l.foldl (fun st _ => noteScroll st) ⟨true, 1⟩ = (⟨true, 1⟩ : TickState) := by
  induction l with
  | nil => rfl
  | cons a l ih => simpa [noteScroll] using ih

/-- C5 (amended part that holds): for any nonempty burst of scroll
notifications within one frame, the script.js throttle runs `onScroll`
exactly once, at the most recent scroll position. -/
theorem C5_coalesced_once (notifs : List ℚ) (flags : PageFlags) (y : ℚ)
    (h : notifs.getLast? = some y) :
    scriptFrame notifs flags = (1, onScroll y) := by
  cases notifs with
  | nil => simp at h
  | cons a l =>
    unfold scriptFrame
    rw [h]
    have hst : (a :: l).foldl (fun st _ => noteScroll st) ⟨false, 0⟩ = (⟨true, 1⟩ : TickState) := by
      rw [List.foldl_cons]
      have : noteScroll ⟨false, 0⟩ = (⟨true, 1⟩ : TickState) := rfl
      rw [this, noteScroll_fold_ticking]
    rw [hst]
    rfl

/-- Witness for the amended C5 theorem at a concrete input: three
notifications in one frame, final position 600. -/
theorem C5_witness :
    ([5, 100, 600] : List ℚ).getLast? = some 600 ∧
    scriptFrame [5, 100, 600] ⟨false, false⟩ = (1, onScroll 600) :=
  ⟨rfl, C5_coalesced_once [5, 100, 600] ⟨false, false⟩ 600 rfl⟩

/-- C5 counterexample: the scroll handler of the unnamed file has no
throttle; two notifications within one frame run its recomputation twice,
not once. -/
theorem C5_counterexample :
    (partFrame [⟨"a", 0, 100⟩] [30, 40] [⟨"#a", false⟩]).1 = 2 := rfl

/-- C6 counterexample: a section whose height and top are both zero is
not excluded: the fallback recompute selects it and marks its link
active. -/
theorem C6_counterexample :
    partScrollHandler [⟨"s", 0, 0⟩] 0 [⟨"#s", false⟩] = [⟨"#s", true⟩] := by
  norm_num [partScrollHandler, computeCurrent, setActive]
  decide

/-- The fold of the fallback recompute reads only ids and tops: mapping
the heights does not change it, whatever the accumulator. -/
theorem computeCurrent_foldl_height (f : ℚ → ℚ) (y : ℚ) :
    ∀ (sections : List Section) (init : String),
      (sections.map (fun s => (⟨s.id, s.top, f s.height⟩ : Section))).foldl
        (fun current s => if s.top - 200 ≤ y then s.id else current) init =
      sections.foldl (fun current s => if s.top - 200 ≤ y then s.id else current) init := by
  intro sections
  induction sections with
  | nil => intro init; rfl
  | cons s ss ih =>
    intro init
    simp only [List.map_cons, List.foldl_cons]
    exact ih _

/-- C6 (amended part that holds): the operation never fails — it is a
total function producing one marking per link — but it does not exclude
degenerate sections: the selection never consults a section's height at
all (replacing every height by anything else leaves the result
unchanged). -/
theorem C6_height_never_consulted :
    (∀ (f : ℚ → ℚ) (sections : List Section) (y : ℚ),
      computeCurrent (sections.map (fun s => ⟨s.id, s.top, f s.height⟩)) y =
        computeCurrent sections y) ∧
    (∀ (sections : List Section) (y : ℚ) (links : List NavLink),
      (partScrollHandler sections y links).length = links.length) := by
  constructor
  · intro f sections y
    unfold computeCurrent
    exact computeCurrent_foldl_height f y sections ""
  · intro sections y links
    unfold partScrollHandler setActive
    exact List.length_map _ _

/-- C7 counterexample: with IntersectionObserver absent, the nav
highlighting block in script.js performs no marking at all — the link
stays unmarked and no observer is installed — instead of falling back to
a marked default state as the other element sets do. -/
theorem C7_counterexample :
    navHighlightInit false [⟨"about", 0, 800⟩] [⟨"#about", false⟩] =
      ([⟨"#about", false⟩], false) := rfl

/-- C7 (amended part that holds): with IntersectionObserver absent the
reveal elements are all marked visible, the skill bars animate
immediately when present, and the stat counters get their final text; but
nav highlighting has no fallback and leaves the links untouched. -/
theorem C7_fallback_states (prm : Bool) (els : List Bool) (hasSkills : Bool)
    (stats : List StatEl) (sections : List Section) (links : List NavLink) :
    (revealInit prm false els).1 = els.map (fun _ => true) ∧
    skillsInit hasSkills false = (hasSkills, false) ∧
    statsInit false stats = (stats.map (fun e =>
      match e.count with
      | some c => { e with text := c ++ e.suffix }
      | none => e), false) ∧
    navHighlightInit false sections links = (links, false) := by
  refine ⟨?_, ?_, ?_, rfl⟩
  · cases prm <;> rfl
  · cases hasSkills <;> rfl
  · simp [statsInit]

/-- C8 counterexample: the navbar scroll handler of the unnamed file
dereferences a missing `#navbar` element and throws, so the exception
propagates out of the handler instead of being absorbed. -/
theorem C8_counterexample :
    navbarScrollEffect none 0 = Except.error ("TypeError: cannot read style of null") := rfl

/-- C8 (amended part that holds): the script.js scroll handler guards
both nullable elements and never fails, and the unnamed file's navbar
handler succeeds whenever the navbar exists. -/
theorem C8_guarded_handlers (navbar scrollTopBtn : Option String) (y : ℚ) (s : String) :
    exceptOk (onScrollGuarded navbar scrollTopBtn y) = true ∧
    exceptOk (navbarScrollEffect (some s) y) = true := by
  constructor
  · rfl
  · by_cases h : y > 50 <;> simp [navbarScrollEffect, h, exceptOk]

/-- C9 counterexample: with an empty section set (but a nonempty link
set) the fallback recompute is NOT a no-op: it clears the previously
active link. -/
theorem C9_counterexample :
    partScrollHandler [] 0 [⟨"#about", true⟩] = [⟨"#about", false⟩] := by decide

/-- C9 (amended part that holds): with an empty link set both recomputes
are no-ops; with an empty section set script.js installs nothing (so no
recompute ever runs), while the unnamed file's handler rewrites every
link's active flag to whether its href is exactly "#". -/
theorem C9_empty_sets (entries : List ObsEntry) (sections : List Section) (y : ℚ)
    (hasObs : Bool) (links : List NavLink) :
    sectionObserverCallback entries [] = [] ∧
    partScrollHandler sections y [] = [] ∧
    navHighlightInit hasObs [] links = (links, false) ∧
    partScrollHandler [] y links =
      links.map (fun l => { l with active := decide (l.href = "#") }) := by
  refine ⟨?_, rfl, ?_, rfl⟩
  · unfold sectionObserverCallback
    cases chooseVisible entries <;> rfl
  · cases hasObs <;> rfl

/-- C10 counterexample: the two highlighting implementations disagree.
With sections a(0,1000) and b(1000,100), nav height 60, viewport height
600 and scroll position 790, the observer-based selection picks "b"
(ratio 3/5 beats 3/20) while the lookahead selection picks "a" (b's
`top - 200 = 800` is still below `scrollY = 790`). -/
theorem C10_counterexample :
    observerSelect [⟨"a", 0, 1000⟩, ⟨"b", 1000, 100⟩] 790 60 600 = some ("b") ∧
    computeCurrent [⟨"a", 0, 1000⟩, ⟨"b", 1000, 100⟩] 790 = "a" := by
  constructor
  · norm_num [observerSelect, chooseVisible, sortDesc, insertDesc, entryOf, secOverlap,
      rootTop, rootBottom]
  · norm_num [computeCurrent]

/-- C10 (amended part that holds): the two implementations do agree on
the specification's reference scenario — sections about(0,800) and
work(800,1200), nav height 60, viewport height 600, scroll position 900 —
both selecting "work". -/
theorem C10_reference_agreement :
    observerSelect [⟨"about", 0, 800⟩, ⟨"work", 800, 1200⟩] 900 60 600 = some ("work") ∧
    computeCurrent [⟨"about", 0, 800⟩, ⟨"work", 800, 1200⟩] 900 = "work" := by
  constructor
  · norm_num [observerSelect, chooseVisible, sortDesc, insertDesc, entryOf, secOverlap,
      rootTop, rootBottom]
  · norm_num [computeCurrent]
